import Mathlib

/-!
Verification development for the web-library reader components
(src/js/component/reader.jsx, src/js/component/modal/export-modal.jsx).

We shallowly embed the reader's local reducer (readerReducer), its
effect guards (readiness gate, data fetch, URL freshness, external
import), the annotation delta computation, the page-rotation
persistence flow, the diff-worker message protocol, and the export
modal's confirm handler, and prove the specified properties about them.

JavaScript binary buffers are modelled as lists of bytes (List Nat);
structuredClone on such an immutable value is the identity. Errors are
modelled as strings. deep-equal on annotation records is structural
equality.
-/

/-- A store annotation item, as relevant to the delta computation: a
unique key plus opaque content compared with deep equality. -/
structure Ann where
  key : String
  content : Nat
deriving DecidableEq, Repr

/-- State lifecycle constants from reader.jsx: UNFETCHED = 0. -/
def UNFETCHED : Nat := 0
/-- NOT_IMPORTED = 0. -/
def NOT_IMPORTED : Nat := 0
/-- FETCHING = 1. -/
def FETCHING : Nat := 1
/-- IMPORTING = 1. -/
def IMPORTING : Nat := 1
/-- FETCHED = 2. -/
def FETCHED : Nat := 2
/-- IMPORTED = 2. -/
def IMPORTED : Nat := 2

/-- structuredClone of an immutable byte buffer: value-equal copy. -/
def cloneData (data : List Nat) : List Nat := data

/-- Actions handled by readerReducer in reader.jsx. `other` stands for
any action type not matched by the switch (the default case). -/
inductive ReaderAction where
  | beginFetchData
  | completeFetchData (data : List Nat)
  | errorFetchData (error : String)
  | beginImportAnns
  | completeImportAnns (importedAnns : List Ann)
  | errorImportAnns (error : String)
  | skipImportAnns
  | ready
  | rotatePagesReq (pageIndexes : List Nat) (degrees : Int)
  | rotatingPages
  | rotatedPages (data : List Nat)
  | other
deriving DecidableEq, Repr

/-- The reader component's local state (initialised in the useReducer
call): pending rotation action, readiness flag, binary data, the two
lifecycle counters, imported annotations, and the last recorded error
(absent initially). -/
structure ReaderState where
  action : Option (List Nat × Int)
  isReady : Bool
  data : Option (List Nat)
  dataState : Nat
  annotationsState : Nat
  importedAnns : List Ann
  error : Option String
deriving DecidableEq, Repr

/-- The initial state passed to useReducer in reader.jsx. -/
def readerInitialState : ReaderState :=
  { action := none
    isReady := false
    data := none
    dataState := UNFETCHED
    annotationsState := NOT_IMPORTED
    importedAnns := []
    error := none }

instance : Inhabited ReaderState := ⟨readerInitialState⟩

/-- Direct embedding of readerReducer from reader.jsx. -/
def readerReducer (state : ReaderState) (action : ReaderAction) : ReaderState :=
  match action with
  | ReaderAction.beginFetchData => { state with dataState := FETCHING }
  | ReaderAction.completeFetchData data =>
      { state with dataState := FETCHED, data := some data }
  | ReaderAction.errorFetchData error =>
      { state with dataState := UNFETCHED, error := some error }
  | ReaderAction.beginImportAnns => { state with annotationsState := IMPORTING }
  | ReaderAction.completeImportAnns importedAnns =>
      { state with annotationsState := IMPORTED, importedAnns := importedAnns }
  | ReaderAction.errorImportAnns error =>
      { state with annotationsState := IMPORTED, error := some error }
  | ReaderAction.skipImportAnns => { state with annotationsState := IMPORTED }
  | ReaderAction.ready => { state with isReady := true }
  | ReaderAction.rotatePagesReq pageIndexes degrees =>
      { state with action := some (pageIndexes, degrees) }
  | ReaderAction.rotatingPages => { state with action := none }
  | ReaderAction.rotatedPages data =>
      { state with action := none, data := some data }
  | ReaderAction.other => state

/-- Run a list of dispatched actions through readerReducer. -/
def runActions (s : ReaderState) (acts : List ReaderAction) : ReaderState :=
  acts.foldl readerReducer s

/-- The READY effect's guard (reader.jsx lines 399-403): dispatches
READY exactly when the reader is not yet ready, child items are
fetched, binary data is present, annotations are imported, and the
user-library settings are not being fetched. -/
def readyEffect (isFetched isFetchingUserLibrarySettings : Bool)
    (s : ReaderState) : Option ReaderAction :=
  if !s.isReady && isFetched && s.data.isSome
      && (s.annotationsState == IMPORTED) && !isFetchingUserLibrarySettings
  then some ReaderAction.ready else none

/-- Store-level selector inputs that the READY effect reads. -/
structure Env where
  isFetched : Bool
  isFetchingUserLibrarySettings : Bool

/-- One state transition within a mount: some effect dispatches a
reducer action; the READY action in particular is dispatched only by
the READY effect, hence only when its guard holds. -/
def MountStep (s s' : ReaderState) : Prop :=
  ∃ (e : Env) (a : ReaderAction), s' = readerReducer s a ∧
    (a = ReaderAction.ready →
      readyEffect e.isFetched e.isFetchingUserLibrarySettings s
        = some ReaderAction.ready)

/-- The i-th state of a transition trace (initial state as default). -/
def stateAt (trace : List ReaderState) (i : Nat) : ReaderState :=
  trace.getD i readerInitialState

theorem readerReducer_isReady_mono (s : ReaderState) (a : ReaderAction)
    (h : s.isReady = true) : (readerReducer s a).isReady = true := by
  cases a <;> simp [readerReducer] <;> exact h

theorem mountStep_isReady_mono {s s' : ReaderState} (h : MountStep s s')
    (hr : s.isReady = true) : s'.isReady = true := by
  obtain ⟨_, a, rfl, -⟩ := h
  exact readerReducer_isReady_mono s a hr

theorem chain_stateAt {trace : List ReaderState}
    (h : List.Chain' MountStep trace) (i : Nat) (hi : i + 1 < trace.length) :
    MountStep (stateAt trace i) (stateAt trace (i + 1)) := by
  have hgd : ∀ j (hj : j < trace.length),
      stateAt trace j = trace.get ⟨j, hj⟩ := by
    intro j hj
    simp [stateAt, List.getD_eq_getElem?_getD, List.getElem?_eq_getElem hj]
  rw [hgd i (by omega), hgd (i + 1) hi]
  exact List.chain'_iff_get.mp h i (by omega)

theorem stateAt_mono_ready {trace : List ReaderState}
    (h : List.Chain' MountStep trace) :
    ∀ i k, i + k < trace.length → (stateAt trace i).isReady = true →
      (stateAt trace (i + k)).isReady = true := by
  intro i k
  induction k with
  | zero => intro _ hr; exact hr
  | succ n ih =>
      intro hlt hr
      have hstep := chain_stateAt h (i + n) (by omega)
      have h1 := ih (by omega) hr
      have h2 := mountStep_isReady_mono hstep h1
      rw [Nat.add_succ]
      exact h2

/-- C1: along any transition trace of one mount, isReady is monotone
(no reducer action ever resets it), it flips from false to true at most
once, and at the flipping step the READY guard held: data non-null,
annotationsState = IMPORTED, child items fetched, and user-library
settings not being fetched. -/
theorem C1_isReady_once_and_monotone (trace : List ReaderState)
    (hchain : List.Chain' MountStep trace) :
    (∀ s a, s.isReady = true → (readerReducer s a).isReady = true)
    ∧ (∀ i j, i ≤ j → j < trace.length →
        (stateAt trace i).isReady = true → (stateAt trace j).isReady = true)
    ∧ (∀ i, i + 1 < trace.length →
        (stateAt trace i).isReady = false →
        (stateAt trace (i + 1)).isReady = true →
        (stateAt trace i).data.isSome = true
        ∧ (stateAt trace i).annotationsState = IMPORTED
        ∧ ∃ e : Env, e.isFetched = true
            ∧ e.isFetchingUserLibrarySettings = false
            ∧ readyEffect e.isFetched e.isFetchingUserLibrarySettings
                (stateAt trace i) = some ReaderAction.ready)
    ∧ (∀ i j, i + 1 < trace.length → j + 1 < trace.length →
        (stateAt trace i).isReady = false →
        (stateAt trace (i + 1)).isReady = true →
        (stateAt trace j).isReady = false →
        (stateAt trace (j + 1)).isReady = true → i = j) := by
  refine ⟨readerReducer_isReady_mono, ?_, ?_, ?_⟩
  · intro i j hij hj hr
    obtain ⟨k, rfl⟩ := Nat.exists_eq_add_of_le hij
    exact stateAt_mono_ready hchain i k hj hr
  · intro i hi hfalse htrue
    obtain ⟨e, a, heq, hready⟩ := chain_stateAt hchain i hi
    by_cases ha : a = ReaderAction.ready
    · subst ha
      have hg := hready rfl
      unfold readyEffect at hg
      by_cases hcond : (!(stateAt trace i).isReady && e.isFetched
          && (stateAt trace i).data.isSome
          && ((stateAt trace i).annotationsState == IMPORTED)
          && !e.isFetchingUserLibrarySettings) = true
      · have hconds := hcond
        simp only [Bool.and_eq_true, Bool.not_eq_true'] at hconds
        obtain ⟨⟨⟨⟨-, hf⟩, hd⟩, him⟩, hs⟩ := hconds
        exact ⟨hd, by simpa using him, e, hf, hs, hg⟩
      · rw [if_neg hcond] at hg
        exact absurd hg (by simp)
    · exfalso
      have : (readerReducer (stateAt trace i) a).isReady
          = (stateAt trace i).isReady := by
        cases a <;> simp [readerReducer] at ha ⊢
      rw [heq, this, hfalse] at htrue
      exact Bool.false_ne_true htrue
  · intro i j hi hj hif hit hjf hjt
    by_contra hne
    rcases Nat.lt_or_ge i j with hlt | hge
    · have : (stateAt trace j).isReady = true := by
        have := stateAt_mono_ready hchain (i + 1) (j - (i + 1))
          (by omega) hit
        have hh : i + 1 + (j - (i + 1)) = j := by omega
        rwa [hh] at this
      rw [this] at hjf
      simp at hjf
    · have hlt' : j < i := by omega
      have : (stateAt trace i).isReady = true := by
        have := stateAt_mono_ready hchain (j + 1) (i - (j + 1))
          (by omega) hjt
        have hh : j + 1 + (i - (j + 1)) = i := by omega
        rwa [hh] at this
      rw [this] at hif
      simp at hif

/-- Witness for C1 at a concrete one-step trace. -/
theorem C1_isReady_once_and_monotone_witness :
    (readerReducer { readerInitialState with isReady := true }
      ReaderAction.beginFetchData).isReady = true :=
  (C1_isReady_once_and_monotone [readerInitialState]
    (List.chain'_singleton _)).1
    { readerInitialState with isReady := true }
    ReaderAction.beginFetchData rfl

/-- The annotation delta pushed to the embedded viewer (reader.jsx
lines 424-426): current annotations filtered to those not deep-equal to
the previous annotation found under the same key (deepEqual against a
missing find result is false, so items with a fresh key pass). -/
def changedAnns (prevAnns curAnns : List Ann) : List Ann :=
  curAnns.filter (fun a =>
    match prevAnns.find? (fun pa => pa.key == a.key) with
    | none => true
    | some pa => !(pa == a))

/-- The delta as the spec words it: items of the current set whose key
occurs in the previous set with deep-unequal content, plus items whose
key does not occur in the previous set. -/
def specDelta (prevAnns curAnns : List Ann) : List Ann :=
  curAnns.filter (fun a =>
    (prevAnns.any (fun pa => pa.key == a.key)
      && prevAnns.any (fun pa => pa.key == a.key && !(pa == a)))
    || !(prevAnns.any (fun pa => pa.key == a.key)))

/-- C2: when previous annotations have pairwise-distinct keys (store
items are keyed uniquely), the computed delta is exactly the
spec-described set, and an item deep-equal to the previous item under
its key is never pushed. -/
theorem C2_delta_exact (prevAnns curAnns : List Ann)
    (hkeys : (prevAnns.map Ann.key).Nodup) :
    changedAnns prevAnns curAnns = specDelta prevAnns curAnns
    ∧ ∀ a ∈ curAnns, (∃ pa ∈ prevAnns, pa.key = a.key ∧ pa = a) →
        a ∉ changedAnns prevAnns curAnns := by
  have hinj := List.inj_on_of_nodup_map hkeys
  have hpt : ∀ a : Ann,
      (match prevAnns.find? (fun pa => pa.key == a.key) with
        | none => true
        | some pa => !(pa == a))
      = ((prevAnns.any (fun pa => pa.key == a.key)
          && prevAnns.any (fun pa => pa.key == a.key && !(pa == a)))
        || !(prevAnns.any (fun pa => pa.key == a.key))) := by
    intro a
    rcases hf : prevAnns.find? (fun pa => pa.key == a.key) with - | pa
    · have hnone := List.find?_eq_none.mp hf
      have hany : prevAnns.any (fun pa => pa.key == a.key) = false := by
        rw [List.any_eq_false]
        intro x hx
        exact hnone x hx
      rw [hf]
      simp [hany]
    · have hmem : pa ∈ prevAnns := List.mem_of_find?_eq_some hf
      have hkey0 := List.find?_some hf
      have hkey : (pa.key == a.key) = true := hkey0
      have hany : prevAnns.any (fun q => q.key == a.key) = true :=
        List.any_eq_true.mpr ⟨pa, hmem, hkey⟩
      rw [hf]
      by_cases hpa : pa = a
      · subst hpa
        have hany2 :
            prevAnns.any (fun q => (q.key == pa.key) && !(q == pa)) = false := by
          rw [List.any_eq_false]
          intro q hq habs
          rw [Bool.and_eq_true] at habs
          obtain ⟨hqk, hqne⟩ := habs
          have hq2 : q = pa := hinj hq hmem (eq_of_beq hqk)
          rw [hq2] at hqne
          simp at hqne
        simp [hany, hany2]
      · have hne : (pa == a) = false := beq_eq_false_iff_ne.mpr hpa
        have hany2 :
            prevAnns.any (fun q => (q.key == a.key) && !(q == a)) = true := by
          refine List.any_eq_true.mpr ⟨pa, hmem, ?_⟩
          rw [Bool.and_eq_true]
          exact ⟨hkey, by simp [hne]⟩
        simp [hany, hany2, hne]
  constructor
  · exact List.filter_congr (fun a _ => hpt a)
  · intro a ha hex
    obtain ⟨pa, hpamem, hpakey, hpaeq⟩ := hex
    subst hpaeq
    intro habs
    rw [changedAnns, List.mem_filter] at habs
    obtain ⟨-, hpred⟩ := habs
    rcases hf : prevAnns.find? (fun q => q.key == pa.key) with - | q
    · have hnone := List.find?_eq_none.mp hf
      exact hnone pa hpamem (by simp)
    · have hqmem : q ∈ prevAnns := List.mem_of_find?_eq_some hf
      have hqkey0 := List.find?_some hf
      have hqkey : (q.key == pa.key) = true := hqkey0
      have hq2 : q = pa := hinj hqmem hpamem (eq_of_beq hqkey)
      simp only [hf, hq2] at hpred
      simp at hpred

/-- Witness for C2 at concrete annotation lists: one changed item, one
unchanged item, one fresh item. -/
theorem C2_delta_exact_witness :
    changedAnns [⟨"k1", 1⟩, ⟨"k2", 2⟩] [⟨"k1", 1⟩, ⟨"k2", 3⟩, ⟨"k3", 4⟩]
      = specDelta [⟨"k1", 1⟩, ⟨"k2", 2⟩] [⟨"k1", 1⟩, ⟨"k2", 3⟩, ⟨"k3", 4⟩] :=
  (C2_delta_exact [⟨"k1", 1⟩, ⟨"k2", 2⟩] [⟨"k1", 1⟩, ⟨"k2", 3⟩, ⟨"k3", 4⟩]
    (by decide)).1

/-- Store action dispatches observable from the reader code. -/
inductive StoreCall where
  | patchAttachment (key : String) (buf : List Nat) (diff : List Nat)
  | uploadAttachment (key : String) (fileName : String) (file : List Nat)
  | tryGetAttachmentURL (key : String)
  | errorProcessingAnns (error : String)
deriving DecidableEq, Repr

/-- Is the call a patch-attachment dispatch? -/
def StoreCall.isPatch : StoreCall → Bool
  | StoreCall.patchAttachment _ _ _ => true
  | _ => false

/-- Is the call a full-buffer upload-attachment dispatch? -/
def StoreCall.isUpload : StoreCall → Bool
  | StoreCall.uploadAttachment _ _ _ => true
  | _ => false

/-- The persistence tail of rotatePages (reader.jsx lines 229-243),
after the worker returned the rotated buffer: dispatch ROTATED_PAGES
with a clone, then either patch the attachment with the diff (try) or
upload the full new buffer (catch). The diff computation's outcome is
a parameter. -/
def rotatePagesFlow (attachmentKey fileName : String)
    (modifiedBuf : List Nat) (diffResult : Except String (List Nat)) :
    List StoreCall × ReaderAction :=
  (match diffResult with
    | Except.ok diff =>
        [StoreCall.patchAttachment attachmentKey modifiedBuf diff]
    | Except.error _ =>
        [StoreCall.uploadAttachment attachmentKey fileName
          (cloneData modifiedBuf)],
   ReaderAction.rotatedPages (cloneData modifiedBuf))

/-- C3: on diff success the store receives exactly one patch call (it
carries the diff payload) and no full-buffer upload call; on diff
failure exactly one full-buffer upload call and no patch call. -/
theorem C3_rotate_persistence (attachmentKey fileName : String)
    (modifiedBuf diff : List Nat) (err : String) :
    ((rotatePagesFlow attachmentKey fileName modifiedBuf
        (Except.ok diff)).1
      = [StoreCall.patchAttachment attachmentKey modifiedBuf diff]
    ∧ ((rotatePagesFlow attachmentKey fileName modifiedBuf
        (Except.ok diff)).1).countP StoreCall.isPatch = 1
    ∧ ((rotatePagesFlow attachmentKey fileName modifiedBuf
        (Except.ok diff)).1).countP StoreCall.isUpload = 0)
    ∧ ((rotatePagesFlow attachmentKey fileName modifiedBuf
        (Except.error err)).1
      = [StoreCall.uploadAttachment attachmentKey fileName modifiedBuf]
    ∧ ((rotatePagesFlow attachmentKey fileName modifiedBuf
        (Except.error err)).1).countP StoreCall.isUpload = 1
    ∧ ((rotatePagesFlow attachmentKey fileName modifiedBuf
        (Except.error err)).1).countP StoreCall.isPatch = 0) := by
  simp [rotatePagesFlow, cloneData, List.countP_cons, StoreCall.isPatch,
    StoreCall.isUpload]

/-- The URL freshness predicate (reader.jsx line 191): a truthy URL
whose fetch timestamp is less than 60000 ms old. -/
def urlIsFresh (url : Option String) (timestamp now : Int) : Bool :=
  match url with
  | none => false
  | some u => !(u == "") && decide (now - timestamp < 60000)

/-- The attachment-URL effect guard (reader.jsx lines 355-359): when
the URL is not fresh and no URL fetch is in flight, request one. -/
def fetchUrlEffect (urlFresh isFetchingUrl : Bool) (attachmentKey : String) :
    Option StoreCall :=
  if !urlFresh && !isFetchingUrl
  then some (StoreCall.tryGetAttachmentURL attachmentKey) else none

/-- C4: a URL fetched at time T is fresh at any time strictly before
T+60000 (in particular T+59999) and stale at any time from T+60000 on
(in particular T+60001); when stale and no fetch is in flight, the
effect requests a re-fetch. -/
theorem C4_url_freshness (u : String) (hu : u ≠ "") (T now : Int)
    (attachmentKey : String) :
    (now < T + 60000 → urlIsFresh (some u) T now = true)
    ∧ (T + 60000 ≤ now → urlIsFresh (some u) T now = false)
    ∧ urlIsFresh (some u) T (T + 59999) = true
    ∧ urlIsFresh (some u) T (T + 60001) = false
    ∧ (urlIsFresh (some u) T now = false →
        fetchUrlEffect (urlIsFresh (some u) T now) false attachmentKey
          = some (StoreCall.tryGetAttachmentURL attachmentKey)) := by
  have hne : (u == "") = false := beq_eq_false_iff_ne.mpr hu
  refine ⟨?_, ?_, ?_, ?_, ?_⟩
  · intro h
    simp [urlIsFresh, hne]
    omega
  · intro h
    simp [urlIsFresh, hne]
    omega
  · simp [urlIsFresh, hne]
  · simp [urlIsFresh, hne]
  · intro h
    rw [h]
    simp [fetchUrlEffect]

/-- Witness for C4 at T = 0, a nonempty URL, and a stale clock. -/
theorem C4_url_freshness_witness :
    urlIsFresh (some "u") 0 (0 + 59999) = true
    ∧ urlIsFresh (some "u") 0 (0 + 60001) = false :=
  ⟨(C4_url_freshness "u" (by decide) 0 0 "AB").2.2.1,
   (C4_url_freshness "u" (by decide) 0 0 "AB").2.2.2.1⟩

/-- Messages the diff worker can post back (diff.worker protocol as
consumed in computeDiffUsingWorker, reader.jsx lines 42-64). -/
inductive WorkerMsg where
  | ready
  | diffComplete (payload : String)
  | diffError (payload : String)
  | log (payload : String)
deriving DecidableEq, Repr

/-- Messages the client posts to the diff worker. -/
inductive ClientMsg where
  | load (oldFile newFile : List Nat)
  | diff
deriving DecidableEq, Repr

/-- The promise's settled outcome. -/
inductive DiffOutcome where
  | resolved (payload : String)
  | rejected (payload : String)
deriving DecidableEq, Repr

/-- Client-visible session state: messages posted so far and the
promise outcome (none while pending; a settled promise never changes). -/
structure ClientState where
  sent : List ClientMsg
  outcome : Option DiffOutcome
deriving DecidableEq, Repr

/-- One step of the client's message listener in computeDiffUsingWorker:
READY triggers posting DIFF; DIFF_COMPLETE resolves and DIFF_ERROR
rejects (a no-op once the promise is settled); LOG only logs. -/
def stepClient (s : ClientState) (m : WorkerMsg) : ClientState :=
  match m with
  | WorkerMsg.ready => { s with sent := s.sent ++ [ClientMsg.diff] }
  | WorkerMsg.diffComplete p =>
      match s.outcome with
      | none => { s with outcome := some (DiffOutcome.resolved p) }
      | some _ => s
  | WorkerMsg.diffError p =>
      match s.outcome with
      | none => { s with outcome := some (DiffOutcome.rejected p) }
      | some _ => s
  | WorkerMsg.log _ => s

/-- Run computeDiffUsingWorker's client against a worker message
sequence: it first posts LOAD with clones of the two buffers, then
reacts to each incoming message. -/
def runClient (oldFile newFile : List Nat) (msgs : List WorkerMsg) :
    ClientState :=
  msgs.foldl stepClient
    { sent := [ClientMsg.load (cloneData oldFile) (cloneData newFile)]
      outcome := none }

/-- Does a worker message equal READY? -/
def isReadyMsg : WorkerMsg → Bool
  | WorkerMsg.ready => true
  | _ => false

/-- Is a worker message a LOG message? -/
def isLogMsg : WorkerMsg → Bool
  | WorkerMsg.log _ => true
  | _ => false

/-- The outcome the spec assigns to the first terminal message:
resolve on the first DIFF_COMPLETE, reject on the first DIFF_ERROR. -/
def firstTerminal : List WorkerMsg → Option DiffOutcome
  | [] => none
  | WorkerMsg.diffComplete p :: _ => some (DiffOutcome.resolved p)
  | WorkerMsg.diffError p :: _ => some (DiffOutcome.rejected p)
  | _ :: rest => firstTerminal rest

theorem stepClient_sent (s : ClientState) (m : WorkerMsg) :
    (stepClient s m).sent
      = s.sent ++ (if isReadyMsg m then [ClientMsg.diff] else []) := by
  cases m with
  | ready => simp [stepClient, isReadyMsg]
  | diffComplete p => cases h : s.outcome <;> simp [stepClient, isReadyMsg, h]
  | diffError p => cases h : s.outcome <;> simp [stepClient, isReadyMsg, h]
  | log p => simp [stepClient, isReadyMsg]

theorem foldl_stepClient_sent (msgs : List WorkerMsg) (s : ClientState) :
    (msgs.foldl stepClient s).sent
      = s.sent ++ List.replicate (msgs.countP isReadyMsg) ClientMsg.diff := by
  induction msgs generalizing s with
  | nil => simp
  | cons m rest ih =>
      rw [List.foldl_cons, ih, stepClient_sent]
      cases hm : isReadyMsg m <;>
        simp [List.countP_cons, hm, List.replicate_succ, List.append_assoc]

theorem foldl_stepClient_outcome (msgs : List WorkerMsg) (s : ClientState) :
    (msgs.foldl stepClient s).outcome
      = match s.outcome with
        | some o => some o
        | none => firstTerminal msgs := by
  induction msgs generalizing s with
  | nil => cases ho : s.outcome <;> simp [ho, firstTerminal]
  | cons m rest ih =>
      rw [List.foldl_cons, ih]
      cases ho : s.outcome with
      | some o => cases m <;> simp [stepClient, ho]
      | none => cases m <;> simp [stepClient, ho, firstTerminal]

theorem firstTerminal_filter_log (msgs : List WorkerMsg) :
    firstTerminal (msgs.filter (fun m => !(isLogMsg m))) = firstTerminal msgs := by
  induction msgs with
  | nil => rfl
  | cons m rest ih =>
      cases m <;> simp [isLogMsg, firstTerminal, ih] <;> exact ih

/-- C5: the client first posts LOAD with the two cloned buffers and
posts one DIFF per READY received (so DIFF is only sent after a READY);
the promise settles to the first DIFF_COMPLETE (resolve) or DIFF_ERROR
(reject) payload; LOG messages never change the outcome. -/
theorem C5_diff_worker_protocol (oldFile newFile : List Nat)
    (msgs : List WorkerMsg) :
    (runClient oldFile newFile msgs).sent
      = ClientMsg.load (cloneData oldFile) (cloneData newFile)
          :: List.replicate (msgs.countP isReadyMsg) ClientMsg.diff
    ∧ (runClient oldFile newFile msgs).outcome = firstTerminal msgs
    ∧ (runClient oldFile newFile
        (msgs.filter (fun m => !(isLogMsg m)))).outcome
      = (runClient oldFile newFile msgs).outcome := by
  refine ⟨?_, ?_, ?_⟩
  · rw [runClient, foldl_stepClient_sent]
    simp
  · rw [runClient, foldl_stepClient_outcome]
  · rw [runClient, runClient, foldl_stepClient_outcome,
      foldl_stepClient_outcome]
    simp [firstTerminal_filter_log]

/-- The import-annotations effect (reader.jsx lines 377-397): guarded
by having an attachment item, dataState FETCHED, annotationsState
NOT_IMPORTED; non-PDF content types take the skip path; otherwise the
external extraction either yields mapped annotations or throws. The
extraction's outcome is a parameter. -/
def importAnnsEffect (hasAttachmentItem : Bool) (contentType : String)
    (s : ReaderState) (importResult : Except String (List Ann)) :
    List ReaderAction :=
  if hasAttachmentItem && (s.dataState == FETCHED)
      && (s.annotationsState == NOT_IMPORTED) then
    if !(contentType == "application/pdf") then
      [ReaderAction.beginImportAnns, ReaderAction.skipImportAnns]
    else
      match importResult with
      | Except.ok anns =>
          [ReaderAction.beginImportAnns, ReaderAction.completeImportAnns anns]
      | Except.error e =>
          [ReaderAction.beginImportAnns, ReaderAction.errorImportAnns e]
  else []

/-- C6: for a non-PDF content type, with data fetched and annotations
not yet imported, the import controller goes straight to IMPORTED,
leaves the imported-annotations list empty, and records no error. -/
theorem C6_skip_import_non_pdf (contentType : String)
    (hct : contentType ≠ "application/pdf") (s : ReaderState)
    (importResult : Except String (List Ann))
    (hdata : s.dataState = FETCHED) (hanns : s.annotationsState = NOT_IMPORTED)
    (himp : s.importedAnns = []) (herr : s.error = none) :
    (runActions s (importAnnsEffect true contentType s importResult)).annotationsState
        = IMPORTED
    ∧ (runActions s (importAnnsEffect true contentType s importResult)).importedAnns
        = []
    ∧ (runActions s (importAnnsEffect true contentType s importResult)).error
        = none := by
  have hct' : (contentType == "application/pdf") = false :=
    beq_eq_false_iff_ne.mpr hct
  simp [importAnnsEffect, runActions, readerReducer, hct', hdata, hanns,
    himp, herr]

/-- Witness for C6: an EPUB attachment with fetched data. -/
theorem C6_skip_import_non_pdf_witness :
    (runActions { readerInitialState with dataState := FETCHED, data := some [7] }
      (importAnnsEffect true "application/epub+zip"
        { readerInitialState with dataState := FETCHED, data := some [7] }
        (Except.ok []))).annotationsState = IMPORTED :=
  (C6_skip_import_non_pdf "application/epub+zip" (by decide)
    { readerInitialState with dataState := FETCHED, data := some [7] }
    (Except.ok []) rfl rfl rfl rfl).1

/-- C7: when annotation extraction throws, the state still reaches
IMPORTED (carrying the error), the imported list stays empty, and the
readiness gate can still fire afterwards. -/
theorem C7_import_error_nonfatal (s : ReaderState) (e : String)
    (hdata : s.dataState = FETCHED) (hanns : s.annotationsState = NOT_IMPORTED)
    (himp : s.importedAnns = []) (hready : s.isReady = false)
    (hbuf : s.data.isSome = true) :
    (runActions s (importAnnsEffect true "application/pdf" s
        (Except.error e))).annotationsState = IMPORTED
    ∧ (runActions s (importAnnsEffect true "application/pdf" s
        (Except.error e))).error = some e
    ∧ (runActions s (importAnnsEffect true "application/pdf" s
        (Except.error e))).importedAnns = []
    ∧ readyEffect true false
        (runActions s (importAnnsEffect true "application/pdf" s
          (Except.error e)))
        = some ReaderAction.ready := by
  simp [importAnnsEffect, runActions, readerReducer, readyEffect, hdata,
    hanns, himp, hready, hbuf, IMPORTED]

/-- Witness for C7: a PDF attachment whose extraction throws. -/
theorem C7_import_error_nonfatal_witness :
    readyEffect true false
      (runActions { readerInitialState with dataState := FETCHED, data := some [7] }
        (importAnnsEffect true "application/pdf"
          { readerInitialState with dataState := FETCHED, data := some [7] }
          (Except.error "boom")))
      = some ReaderAction.ready :=
  (C7_import_error_nonfatal
    { readerInitialState with dataState := FETCHED, data := some [7] }
    "boom" rfl rfl rfl rfl rfl).2.2.2

/-- The binary-data fetch effect's guard (reader.jsx lines 362-374):
fire only when the URL is fresh and dataState is UNFETCHED. -/
def fetchDataEffectFires (urlFresh : Bool) (s : ReaderState) : Bool :=
  urlFresh && (s.dataState == UNFETCHED)

/-- The actions the data-fetch effect dispatches once fired: BEGIN,
then COMPLETE with the bytes or ERROR with the thrown error. -/
def fetchDataActions (fetchResult : Except String (List Nat)) :
    List ReaderAction :=
  match fetchResult with
  | Except.ok d => [ReaderAction.beginFetchData, ReaderAction.completeFetchData d]
  | Except.error e => [ReaderAction.beginFetchData, ReaderAction.errorFetchData e]

/-- C8: the data fetch fires only from UNFETCHED (never while FETCHING
or after FETCHED), and a failed fetch returns dataState to UNFETCHED
with the error recorded, re-triggerable exactly when the URL guard
holds again. -/
theorem C8_fetch_guard_and_error (urlFresh : Bool) (s : ReaderState)
    (e : String) :
    (fetchDataEffectFires urlFresh s = true → s.dataState = UNFETCHED)
    ∧ (s.dataState = FETCHING ∨ s.dataState = FETCHED →
        fetchDataEffectFires urlFresh s = false)
    ∧ (runActions s (fetchDataActions (Except.error e))).dataState = UNFETCHED
    ∧ (runActions s (fetchDataActions (Except.error e))).error = some e
    ∧ (∀ fresh2 : Bool,
        fetchDataEffectFires fresh2
          (runActions s (fetchDataActions (Except.error e))) = fresh2) := by
  refine ⟨?_, ?_, ?_, ?_, ?_⟩
  · intro h
    rw [fetchDataEffectFires, Bool.and_eq_true] at h
    exact beq_iff_eq.mp h.2
  · intro h
    rcases h with h | h <;>
      simp [fetchDataEffectFires, h, FETCHING, FETCHED, UNFETCHED]
  · simp [runActions, fetchDataActions, readerReducer]
  · simp [runActions, fetchDataActions, readerReducer]
  · intro fresh2
    cases fresh2 <;>
      simp [runActions, fetchDataActions, readerReducer,
        fetchDataEffectFires, UNFETCHED]

/-- Witness for C8: a state already FETCHING never re-fires the fetch. -/
theorem C8_fetch_guard_and_error_witness :
    fetchDataEffectFires true
      { readerInitialState with dataState := FETCHING } = false :=
  (C8_fetch_guard_and_error true
    { readerInitialState with dataState := FETCHING } "boom").2.1 (Or.inl rfl)

/-- An export format entry (constants/export-formats): key plus file
extension ("" models a falsy/absent extension). -/
structure ExportFormat where
  key : String
  extension : String
deriving DecidableEq, Repr

/-- defaultState in export-modal.jsx: not busy, first format selected. -/
def exportDefaultState (formats : List ExportFormat) :
    Bool × String :=
  (false, (formats.headD ⟨"", ""⟩).key)

/-- handleSelect in export-modal.jsx: store the newly selected format
when it changed. -/
def handleSelect (st : Bool × String) (format : String)
    (hasChanged : Bool) : Bool × String :=
  if hasChanged then (st.1, format) else st

/-- The filename built in handleExport:
['export-data', extension].filter(Boolean).join('.'). -/
def exportFileName (extension : String) : String :=
  if extension == "" then "export-data" else "export-data." ++ extension

/-- Observable steps taken by handleExport, in order. -/
inductive ExportEvent where
  | setBusy (b : Bool)
  | exportCall (itemKeys : List String) (format : String)
  | saveFile (fileName : String)
  | closeModal
  | selectModeOff
deriving DecidableEq, Repr

/-- Is the event the client-side file save? -/
def ExportEvent.isSave : ExportEvent → Bool
  | ExportEvent.saveFile _ => true
  | _ => false

/-- handleExport in export-modal.jsx (lines 36-49): look up the chosen
format's extension, set the busy flag, await the export, save the file,
clear the busy flag, close the modal, clear select mode. Looking up a
key absent from the format list is a crash (none). -/
def handleExport (formats : List ExportFormat) (st : Bool × String)
    (itemKeys : List String) :
    Option (List ExportEvent × (Bool × String)) :=
  match formats.find? (fun f => f.key == st.2) with
  | none => none
  | some f =>
      some ([ExportEvent.setBusy true,
             ExportEvent.exportCall itemKeys st.2,
             ExportEvent.saveFile (exportFileName f.extension),
             ExportEvent.setBusy false,
             ExportEvent.closeModal,
             ExportEvent.selectModeOff],
            (false, st.2))

/-- The busy flag after the first i events have run. -/
def busyAfter (initialBusy : Bool) (events : List ExportEvent) (i : Nat) :
    Bool :=
  (events.take i).foldl
    (fun b e => match e with | ExportEvent.setBusy b2 => b2 | _ => b)
    initialBusy

/-- C9: selecting format X and confirming performs exactly one
file-save call, whose filename ends in the extension registered for X;
the busy flag is false initially (default state and before the
handler), true from just before the export call until the save
completes, and false again afterwards. -/
theorem C9_export_flow (formats : List ExportFormat) (st0 : Bool × String)
    (fmt : String) (itemKeys : List String) (f : ExportFormat)
    (hfind : formats.find? (fun g => g.key == fmt) = some f)
    (hnotbusy : st0.1 = false) :
    ∃ events st', handleExport formats (handleSelect st0 fmt true) itemKeys
        = some (events, st')
      ∧ events.countP ExportEvent.isSave = 1
      ∧ (∃ pre, ExportEvent.saveFile (pre ++ f.extension) ∈ events)
      ∧ (exportDefaultState formats).1 = false
      ∧ (handleSelect st0 fmt true).1 = false
      ∧ busyAfter false events 0 = false
      ∧ busyAfter false events 1 = true
      ∧ busyAfter false events 2 = true
      ∧ busyAfter false events 3 = true
      ∧ busyAfter false events events.length = false
      ∧ st'.1 = false := by
  have hsel : handleSelect st0 fmt true = (st0.1, fmt) := by
    simp [handleSelect]
  rw [hsel]
  refine ⟨[ExportEvent.setBusy true,
      ExportEvent.exportCall itemKeys fmt,
      ExportEvent.saveFile (exportFileName f.extension),
      ExportEvent.setBusy false,
      ExportEvent.closeModal,
      ExportEvent.selectModeOff], (false, fmt),
    ?_, ?_, ?_, ?_, ?_, ?_, ?_, ?_, ?_, ?_, ?_⟩
  · simp [handleExport, hfind]
  · simp [List.countP_cons, ExportEvent.isSave]
  · refine ⟨if f.extension == "" then "export-data" else "export-data.", ?_⟩
    have : exportFileName f.extension
        = (if f.extension == "" then "export-data" else "export-data.")
            ++ f.extension := by
      rcases hext : f.extension == "" with - | -
      · simp [exportFileName, hext]
      · have : f.extension = "" := beq_iff_eq.mp hext
        simp [exportFileName, hext, this]
    rw [← this]
    simp
  · simp [exportDefaultState]
  · exact hnotbusy
  · simp [busyAfter]
  · simp [busyAfter, List.take, List.foldl]
  · simp [busyAfter, List.take, List.foldl]
  · simp [busyAfter, List.take, List.foldl]
  · simp [busyAfter, List.take, List.foldl]
  · simp

/-- Witness for C9 at a concrete two-format registry. -/
theorem C9_export_flow_witness :
    ∃ events st',
      handleExport [⟨"bibtex", "bib"⟩, ⟨"ris", "ris"⟩]
          (handleSelect (false, "bibtex") "ris" true) ["AB"]
        = some (events, st')
      ∧ events.countP ExportEvent.isSave = 1
      ∧ (∃ pre, ExportEvent.saveFile (pre ++ "ris") ∈ events)
      ∧ (exportDefaultState [⟨"bibtex", "bib"⟩, ⟨"ris", "ris"⟩]).1 = false
      ∧ (handleSelect (false, "bibtex") "ris" true).1 = false
      ∧ busyAfter false events 0 = false
      ∧ busyAfter false events 1 = true
      ∧ busyAfter false events 2 = true
      ∧ busyAfter false events 3 = true
      ∧ busyAfter false events events.length = false
      ∧ st'.1 = false :=
  C9_export_flow [⟨"bibtex", "bib"⟩, ⟨"ris", "ris"⟩] (false, "bibtex")
    "ris" ["AB"] ⟨"ris", "ris"⟩ (by decide) rfl

/-- JavaScript Array.prototype.map with a possibly-throwing callback:
stops at the first thrown error. Used by getProcessedAnns below. -/
def mapProcess (processOne : Ann → Except String String) :
    List Ann → Except String (List String)
  | [] => Except.ok []
  | a :: rest =>
      match processOne a with
      | Except.error e => Except.error e
      | Except.ok r =>
          match mapProcess processOne rest with
          | Except.error e => Except.error e
          | Except.ok rs => Except.ok (r :: rs)

/-- getProcessedAnnotations in reader.jsx (lines 207-227): map each
annotation through the per-item conversion inside a try block; on any
throw, dispatch a typed processing-error action and fall through with
no return value (undefined, modelled as none). Returns the produced
value and the dispatched store calls. -/
def getProcessedAnns (processOne : Ann → Except String String)
    (anns : List Ann) : Option (List String) × List StoreCall :=
  match mapProcess processOne anns with
  | Except.ok rs => (some rs, [])
  | Except.error _ =>
      (none, [StoreCall.errorProcessingAnns "Failed to process annotations"])

/-- What the annotation delta effect (reader.jsx line 427) pushes to
the embedded viewer: the processed changed annotations. -/
def annDeltaPush (processOne : Ann → Except String String)
    (prevAnns curAnns : List Ann) : Option (List String) :=
  (getProcessedAnns processOne (changedAnns prevAnns curAnns)).1

theorem mapProcess_error_of_mem (processOne : Ann → Except String String)
    (anns : List Ann) (a : Ann) (e : String) (ha : a ∈ anns)
    (hfail : processOne a = Except.error e) :
    ∃ e2, mapProcess processOne anns = Except.error e2 := by
  induction anns with
  | nil => cases ha
  | cons b rest ih =>
      rcases List.mem_cons.mp ha with rfl | hmem
      · exact ⟨e, by simp [mapProcess, hfail]⟩
      · rcases hb : processOne b with eb | rb
        · exact ⟨eb, by simp [mapProcess, hb]⟩
        · obtain ⟨e2, he2⟩ := ih hmem
          exact ⟨e2, by simp [mapProcess, hb, he2]⟩

/-- C10: if processing any changed annotation throws, the reader
dispatches the typed processing-error action and the value pushed to
the embedded viewer is undefined (none), not an empty list. -/
theorem C10_processing_error_undefined
    (processOne : Ann → Except String String) (prevAnns curAnns : List Ann)
    (a : Ann) (e : String) (ha : a ∈ changedAnns prevAnns curAnns)
    (hfail : processOne a = Except.error e) :
    annDeltaPush processOne prevAnns curAnns = none
    ∧ annDeltaPush processOne prevAnns curAnns ≠ some []
    ∧ (getProcessedAnns processOne (changedAnns prevAnns curAnns)).2
      = [StoreCall.errorProcessingAnns "Failed to process annotations"] := by
  obtain ⟨e2, he2⟩ :=
    mapProcess_error_of_mem processOne (changedAnns prevAnns curAnns) a e
      ha hfail
  refine ⟨?_, ?_, ?_⟩ <;>
    simp [annDeltaPush, getProcessedAnns, he2]

/-- Witness for C10: one stale item whose processing throws. -/
theorem C10_processing_error_undefined_witness :
    annDeltaPush
      (fun a => if a.key == "bad" then Except.error "boom"
        else Except.ok "ok")
      [] [⟨"bad", 1⟩] = none :=
  (C10_processing_error_undefined
    (fun a => if a.key == "bad" then Except.error "boom"
      else Except.ok "ok")
    [] [⟨"bad", 1⟩] ⟨"bad", 1⟩ "boom" (by decide) rfl).1
